import Mathlib

/-!
Verification of the DouyinLiveRecorder danmu (live-comment) recording core.

This file gives a shallow embedding of the two source modules

  * `src/douyin_protobuf.py`  — the frame codec (`parse_danmu_message`,
    `create_ack_frame`, `create_heartbeat_frame`);
  * `src/danmu_recorder.py`   — the recorder (`DouyinDanmuRecorder`), its
    segmented XML comment writer (`write_danmu`, `create_danmu_file`,
    `close_danmu_file`, `generate_filename`, `set_video_filename`), its
    lifecycle entry points (`start`, `stop`) and its WebSocket close
    callback (`_on_close`, embedded as `on_close`);

and proves the specification claims about them.

Modelling conventions:

  * Python byte strings are `List Nat`; text strings are Lean `String`.
  * All wall-clock instants and durations are exact integer milliseconds
    (`ℤ`).  The source works with float seconds; the float value `t` is
    embedded as the integer `t * 1000`, so the source's `int(timestamp *
    1000)` is the embedded timestamp itself and `round(second, 2)` is a
    rounding of the embedded difference to centiseconds.  Binary-float
    representation artifacts are outside the model.  Python's `round`
    breaks exact ties to the even digit; ties are unrepresentable for the
    float inputs the source feeds it, and the embedding breaks them
    towards positive infinity (`roundCenti`); no theorem below depends on
    a tie.
  * The generated protobuf module `dy_pb2` and the gzip codec are not part
    of the two source files; every theorem about the decode path is
    universally quantified over their behaviour, modelled as total
    functions into `Except String _` (an `Except.error` plays the role of
    a raised Python exception).
  * The recorder object's mutable attributes are gathered in the state
    record `RState`; the files the recorder has written under its output
    directory are an association list from file name to the list of lines
    (each line keeps its trailing newline, as Python's `readlines`
    returns them).
  * Python truthiness on the optional attributes (`self.filename`,
    `self.current_segment_file`, `self.segment_start_time`) is embedded
    as `Option.isSome`; the source never stores the falsy values `""` or
    `0.0` in these attributes.
-/

namespace DLR

/-! ### Frame codec: data model (`src/douyin_protobuf.py`, `dy_pb2`) -/

/-- Outer websocket push-frame envelope (protobuf message `PushFrame`):
only the three fields the source touches are modelled. -/
structure PushFrameMsg where
  logid : Nat
  payloadType : String
  payload : List Nat
  deriving DecidableEq

/-- A freshly constructed `PushFrame()` protobuf object: every field holds
its protobuf default value. -/
def pushFrameDefault : PushFrameMsg :=
  { logid := 0, payloadType := "", payload := [] }

/-- One entry of the inner message batch (`Response.messagesList`). -/
structure RawMessage where
  method : String
  payload : List Nat
  deriving DecidableEq

/-- The gzip-decompressed body of a data frame (protobuf message
`Response`): the fields the source reads. -/
structure ResponseMsg where
  messagesList : List RawMessage
  needAck : Bool
  internalExt : String
  deriving DecidableEq

/-- The `user` sub-message of a chat message, as the dict produced by
`json_format.MessageToDict`: the source reads only `nickName`. -/
structure ChatUser where
  nickName : String
  deriving DecidableEq

/-- A decoded `WebcastChatMessage` payload (protobuf message
`ChatMessage`), restricted to the fields the source reads. -/
structure ChatMessageD where
  user : ChatUser
  content : String
  deriving DecidableEq

/-- The dictionary `parse_danmu_message` returns: either a chat-comment
dict (keys `user`, `content`, `logid`, `needAck`, `internalExt`) or an
ack-request-only dict (keys `needAck = True`, `logid`, `internalExt`). -/
inductive DanmuData where
  | chat (user : ChatUser) (content : String) (logid : Nat)
      (needAck : Bool) (internalExt : String)
  | ackOnly (logid : Nat) (internalExt : String)
  deriving DecidableEq

/-! ### Frame codec: operations -/

/-- The `for msg in payloadPackage.messagesList` loop of
`parse_danmu_message`: the first message whose `method` is
`WebcastChatMessage` is decoded and returned; a decode failure inside the
loop is a raised exception (`Except.error`), which aborts the whole
parse.  Later messages of the batch are not visited. -/
def processMessages (parseChat : List Nat → Except String ChatMessageD)
    (logid : Nat) (needAck : Bool) (internalExt : String) :
    List RawMessage → Except String (Option DanmuData)
  | [] => Except.ok none
  | m :: rest =>
    if m.method = "WebcastChatMessage" then
      match parseChat m.payload with
      | Except.ok cm =>
          Except.ok (some (DanmuData.chat cm.user cm.content logid needAck internalExt))
      | Except.error e => Except.error e
    else processMessages parseChat logid needAck internalExt rest

/-- The body of the `try:` block of `parse_danmu_message`, before the
`except` handler: push-frame parse, gzip decompression, inner batch
parse, the chat-message loop, and the trailing ack-only case.  The
protobuf and gzip primitives live in `dy_pb2` / the standard library, so
they are passed in as arbitrary fallible functions. -/
def parse_danmu_body (parsePF : List Nat → Except String PushFrameMsg)
    (gzipDec : List Nat → Except String (List Nat))
    (parseResp : List Nat → Except String ResponseMsg)
    (parseChat : List Nat → Except String ChatMessageD)
    (message : List Nat) : Except String (Option DanmuData) := do
  let wssPackage ← parsePF message
  let decompressed ← gzipDec wssPackage.payload
  let payloadPackage ← parseResp decompressed
  match ← processMessages parseChat wssPackage.logid payloadPackage.needAck
      payloadPackage.internalExt payloadPackage.messagesList with
  | some d => pure (some d)
  | none =>
    if payloadPackage.needAck then
      pure (some (DanmuData.ackOnly wssPackage.logid payloadPackage.internalExt))
    else
      pure none

/-- `parse_danmu_message` of `src/douyin_protobuf.py`: the body wrapped in
the `try: ... except Exception: return None` boundary. -/
def parse_danmu_message (parsePF : List Nat → Except String PushFrameMsg)
    (gzipDec : List Nat → Except String (List Nat))
    (parseResp : List Nat → Except String ResponseMsg)
    (parseChat : List Nat → Except String ChatMessageD)
    (message : List Nat) : Option DanmuData :=
  match parse_danmu_body parsePF gzipDec parseResp parseChat message with
  | Except.ok r => r
  | Except.error _ => none

/-- `create_ack_frame` of `src/douyin_protobuf.py`, up to protobuf
serialization: the exact sequence of field assignments the source
performs on a fresh `PushFrame` object.  Note the second assignment to
`payloadType` overwrites the first. -/
def create_ack_frame (logid : Nat) (internal_ext : String) : PushFrameMsg :=
  let obj0 := pushFrameDefault
  let obj1 := { obj0 with payloadType := "ack" }
  let obj2 := { obj1 with logid := logid }
  let obj3 := { obj2 with payloadType := internal_ext }
  obj3

/-- `create_heartbeat_frame` of `src/douyin_protobuf.py`, up to protobuf
serialization. -/
def create_heartbeat_frame : PushFrameMsg :=
  { pushFrameDefault with payloadType := "hb" }

/-! ### String helpers for the writer model -/

/-- Whitespace test used by the embedding of Python's `str.strip()`. -/
def isWsChar (ch : Char) : Bool :=
  ch == ' ' || ch == '\n' || ch == '\t' || ch == '\r'

/-- Drop leading whitespace characters. -/
def trimLeftChars : List Char → List Char
  | [] => []
  | ch :: cs => if isWsChar ch then trimLeftChars cs else ch :: cs

/-- Python's `str.strip()`: drop whitespace from both ends. -/
def pyStrip (x : String) : String :=
  String.mk ((trimLeftChars ((trimLeftChars x.data).reverse)).reverse)

/-- Auxiliary for `pathStem`: on a reversed character list, drop
everything up to and including the first `.` (i.e. up to the last `.` of
the original string). -/
def dropThroughDot : List Char → List Char
  | [] => []
  | ch :: cs => if ch == '.' then cs else dropThroughDot cs

/-- Python's `pathlib.Path(p).stem`: the final path component without its
last suffix (a suffix requires a `.` after the component's first
character, so dotfiles keep their name). -/
def pathStem (p : String) : String :=
  let rbase := p.data.reverse.takeWhile (fun ch => !(ch == '/'))
  if rbase.dropLast.contains '.' then String.mk (dropThroughDot rbase).reverse
  else String.mk rbase.reverse

/-- Rounding of an exact millisecond count to centiseconds, embedding the
source's `round(second, 2)` on the (ms-precision) float `second`; exact
ties go towards positive infinity (see the header note on ties). -/
def roundCenti (ms : ℤ) : ℤ := Int.fdiv (ms + 5) 10

/-- Python's `str()` of the rounded float, taking the value as an exact
centisecond count: `314 ↦ "3.14"`, `310 ↦ "3.1"`, `300 ↦ "3.0"`,
`305 ↦ "3.05"`. -/
def centiStr (n : ℤ) : String :=
  let m := n.natAbs
  let ip := m / 100
  let fr := m % 100
  let core :=
    if fr = 0 then toString ip ++ ".0"
    else if fr % 10 = 0 then toString ip ++ "." ++ toString (fr / 10)
    else if fr < 10 then toString ip ++ ".0" ++ toString fr
    else toString ip ++ "." ++ toString fr
  if n < 0 then "-" ++ core else core

/-- The comment line written by `write_danmu` (its f-string), with the
trailing newline: `second_ms` is the already computed offset in
milliseconds and `timestamp_ms` the absolute timestamp; the source's
`{round(second, 2)}` is `centiStr (roundCenti second_ms)` and its
`{int(timestamp * 1000)}` is `timestamp_ms`. -/
def danmu_line (second_ms : ℤ) (timestamp_ms : ℤ) (user content : String) : String :=
  "  <d p=\"" ++ centiStr (roundCenti second_ms) ++ ",1,25,16777215," ++
    toString timestamp_ms ++ ",0,1602022773,0\" user=\"" ++ user ++ "\">" ++
    content ++ "</d>\n"

/-- Boolean prefix test on character lists (structural, so that it
evaluates inside the kernel). -/
def charsStartWith : List Char → List Char → Bool
  | [], _ => true
  | _ :: _, [] => false
  | p :: ps, c :: cs => p == c && charsStartWith ps cs

/-- A line is a comment record iff it starts with the fixed text
`  <d ` that every line written by `write_danmu` starts with. -/
def isDLine (l : String) : Bool := charsStartWith "  <d ".data l.data

/-- Number of comment (`<d …>`) lines of a file. -/
def dCount (ls : List String) : Nat := ls.countP isDLine

/-! ### Recorder state (`DouyinDanmuRecorder.__init__`) -/

/-- The mutable attributes of a `DouyinDanmuRecorder` instance together
with the files it has written (file name ↦ lines, newlines kept). -/
structure RState where
  room_id : String
  room_real_id : Option String
  video_filename : Option String
  filename : Option String
  current_segment_file : Option String
  segment_index : Nat
  segment_start_time : Option ℤ
  start_time_t : ℤ
  danmu_amount : Nat
  last_danmu_time : ℤ
  stop_signal : Bool
  retry : Nat
  max_retry : Nat
  files : List (String × List String)
  deriving DecidableEq

/-- The state `__init__` builds (with `max_retry = 3` and an empty output
directory), for a given room id and optional initial video file name. -/
def init_state (room_id : String) (video_filename : Option String) : RState :=
  { room_id := room_id
  , room_real_id := none
  , video_filename := video_filename
  , filename := none
  , current_segment_file := none
  , segment_index := 0
  , segment_start_time := none
  , start_time_t := 0
  , danmu_amount := 0
  , last_danmu_time := 0
  , stop_signal := false
  , retry := 0
  , max_retry := 3
  , files := [] }

/-- Lookup of a file's lines in the output directory. -/
def lookupFile : List (String × List String) → String → Option (List String)
  | [], _ => none
  | (k, v) :: rest, fn => if k = fn then some v else lookupFile rest fn

/-- Overwrite (or create) a file with the given lines. -/
def setFile : List (String × List String) → String → List String →
    List (String × List String)
  | [], fn, v => [(fn, v)]
  | (k, w) :: rest, fn, v =>
    if k = fn then (fn, v) :: rest else (k, w) :: setFile rest fn v

/-! ### Writer operations (`src/danmu_recorder.py`) -/

/-- The XML template head `create_danmu_file` writes: two header lines
and the open root tag. -/
def xml_header : List String :=
  [ "<?xml version=\"1.0\" encoding=\"utf-8\"?>\n"
  , "<?xml-stylesheet type=\"text/xsl\" href=\"#s\"?>\n"
  , "<i>\n" ]

/-- `generate_filename`: with a video file name set, its stem plus
`.xml`; otherwise `None` (the optional segment-index argument does not
influence the result). -/
def generate_filename (s : RState) : Option String :=
  s.video_filename.map (fun v => pathStem v ++ ".xml")

/-- `set_video_filename`. -/
def set_video_filename (s : RState) (video_filename : String) : RState :=
  { s with video_filename := some video_filename }

/-- `create_danmu_file`: write the complete XML template — header, open
root tag, and immediately the closing `</i>` tag. -/
def create_danmu_file (s : RState) (fn : String) : RState :=
  { s with files := setFile s.files fn (xml_header ++ ["</i>\n"]) }

/-- The tail-rewriting insertion step of `write_danmu`: if the file's
last line strips to `</i>`, the comment line is inserted immediately
before it (`content_lines.insert(-1, danmu_line)`); otherwise the
comment line and a fresh closing tag are appended. -/
def insert_before_close (lines : List String) (dl : String) : List String :=
  match lines.getLast? with
  | some last =>
    if pyStrip last = "</i>" then lines.dropLast ++ [dl, last]
    else lines ++ [dl, "</i>\n"]
  | none => [dl, "</i>\n"]

/-- The target path selection of `write_danmu`: the current segment file
if one is open, else the plain file name (`if self.current_segment_file:
… elif self.filename: …`). -/
def activeFile (s : RState) : Option String :=
  match s.current_segment_file with
  | some f => some f
  | none => s.filename

/-- The offset computation of `write_danmu`: in segment mode (a current
segment file and its start instant both set — Python truthiness) the
offset is relative to the segment start; otherwise it is relative to the
recording start `start_time_t`. -/
def secondOf (s : RState) (timestamp : ℤ) : ℤ :=
  match s.current_segment_file, s.segment_start_time with
  | some _, some st => timestamp - st
  | _, _ => timestamp - s.start_time_t

/-- The `with self.file_lock:` block of `write_danmu`: compute the
offset, pick the target file, and — only if that file exists on disk —
rewrite it with the comment line inserted before the closing tag; the
comment counter and last-comment time are updated in every case in which
a target file name exists. -/
def write_danmu_locked (s : RState) (user content : String) (timestamp : ℤ) : RState :=
  let second := secondOf s timestamp
  match activeFile s with
  | none => s
  | some fp =>
    let s1 :=
      match lookupFile s.files fp with
      | none => s
      | some lines =>
        let newLines := insert_before_close lines (danmu_line second timestamp user content)
        { s with files := setFile s.files fp newLines }
    { s1 with danmu_amount := s1.danmu_amount + 1, last_danmu_time := timestamp }

/-- `write_danmu`.  If neither a plain file nor a segment file has been
created yet, a segment file is created first — the source's check
`hasattr(self, 'segment_index') and self.segment_index is not None` is
always true because `__init__` sets `segment_index = 0`, so the
non-segment creation branch of the source is unreachable.  If
`generate_filename` yields `None` (no video file name yet) the call
returns with no effect at all.  `now2` embeds the fresh `time.time()`
read stored into `segment_start_time` on creation. -/
def write_danmu (s : RState) (user content : String) (timestamp now2 : ℤ) : RState :=
  if s.filename.isNone && s.current_segment_file.isNone then
    match generate_filename s with
    | none => s
    | some fn =>
      let s1 := { s with current_segment_file := some fn }
      let s2 := create_danmu_file s1 fn
      let s3 := { s2 with segment_start_time := some now2
                        , segment_index := s2.segment_index + 1 }
      write_danmu_locked s3 user content timestamp
  else
    write_danmu_locked s user content timestamp

/-- `close_danmu_file`: the function only logs; it touches neither the
file nor the recorder state.  The boolean records whether the completion
log line was emitted (file name given and file present). -/
def close_danmu_file (s : RState) (filename : Option String) : RState × Bool :=
  match filename with
  | none => (s, false)
  | some f => (s, (lookupFile s.files f).isSome)

/-- `stop`: set the stop flag (the socket close it also requests is an
external action on the websocket object; file finalization is left to
the close callback). -/
def stop (s : RState) : RState := { s with stop_signal := true }

/-! ### Lifecycle (`start`, `_on_close`) -/

/-- The room JSON `get_live_state_json` returns (`data.data[0]`),
restricted to the keys `start` reads. -/
structure RoomJson where
  id_str : Option String
  status : Option ℤ
  deriving DecidableEq

/-- Externally visible actions `start` can take after the room-status
lookup. -/
inductive StartEffect where
  | openSocket
  | createFile
  | startSegmentChecker
  deriving DecidableEq

/-- `start`, given the already-resolved room JSON (the Room-Status
collaborator's answer) and the current instant: on a missing room or a
room whose `status` (default `0`) is not `2` it returns having taken no
action beyond recording the real room id; otherwise it stamps the
recording start instant, resets the segment bookkeeping when
segmentation is enabled, and opens the websocket (plus the segment
checker thread when enabled).  `start` never creates an output file —
file creation is deferred to the first comment. -/
def start (s : RState) (room_json : Option RoomJson) (enable_segment : Bool)
    (now : ℤ) : RState × List StartEffect :=
  match room_json with
  | none => (s, [])
  | some r =>
    let s1 := { s with room_real_id := some (r.id_str.getD s.room_id) }
    if (r.status.getD 0) ≠ 2 then (s1, [])
    else
      let s2 := { s1 with start_time_t := now }
      let s3 :=
        if enable_segment then
          { s2 with segment_index := 0, segment_start_time := none }
        else s2
      (s3, if enable_segment then
              [StartEffect.openSocket, StartEffect.startSegmentChecker]
            else [StartEffect.openSocket])

/-- Externally visible action of the close callback. -/
inductive CloseAction where
  | finalize
  | sleepRetry (delay : Nat)
  | noop
  deriving DecidableEq

/-- `_on_close` of `src/danmu_recorder.py`: on a user-initiated stop it
finalizes the files (`close_danmu_file`, a no-op on state); on a
non-user close with `retry < max_retry` it increments the retry counter
and sleeps 2 seconds — the source contains no actual reconnection
(`# 这里可以添加重连逻辑`); once the bound is reached it does nothing. -/
def on_close (s : RState) : RState × CloseAction :=
  if s.stop_signal then (s, CloseAction.finalize)
  else if s.retry < s.max_retry then
    ({ s with retry := s.retry + 1 }, CloseAction.sleepRetry 2)
  else (s, CloseAction.noop)

/-! ### Shared helper lemmas -/

theorem charsStartWith_append (p t : List Char) : charsStartWith p (p ++ t) = true := by
  induction p with
  | nil => rfl
  | cons c cs ih => simp [charsStartWith, ih]

/-- Every line produced by the source's comment f-string is recognized as
a comment line. -/
theorem isDLine_danmu_line (a b : ℤ) (u c : String) : isDLine (danmu_line a b u c) = true := by
  have h : danmu_line a b u c = "  <d " ++ ("p=\"" ++ centiStr (roundCenti a) ++
      ",1,25,16777215," ++ toString b ++ ",0,1602022773,0\" user=\"" ++ u ++ "\">" ++
      c ++ "</d>\n") := by
    simp only [danmu_line, ← String.append_assoc]
    rfl
  rw [isDLine, h, String.data_append]
  exact charsStartWith_append _ _

theorem lookupFile_setFile (fs : List (String × List String)) (fn : String)
    (v : List String) : lookupFile (setFile fs fn v) fn = some v := by
  induction fs with
  | nil => simp [setFile, lookupFile]
  | cons p rest ih =>
    obtain ⟨k, w⟩ := p
    by_cases h : k = fn
    · simp [setFile, h, lookupFile]
    · simp [setFile, h, lookupFile, ih]

/-- On a file that ends with the closing tag line, the insertion step
puts the comment line immediately before the closing tag. -/
theorem insert_before_close_eq (pre : List String) (dl : String) :
    insert_before_close (pre ++ ["</i>\n"]) dl = pre ++ [dl, "</i>\n"] := by
  have hg : (pre ++ ["</i>\n"]).getLast? = some "</i>\n" := by simp
  have hs : pyStrip "</i>\n" = "</i>" := by decide
  have hd : (pre ++ ["</i>\n"]).dropLast = pre := by simp
  rw [insert_before_close, hg]
  simp only [hs, if_pos, hd]

/-- A state with an active target file is past the lazy-creation branch
of `write_danmu`. -/
theorem write_danmu_of_activeFile (s : RState) (u c : String) (t n : ℤ) (fp : String)
    (hfp : activeFile s = some fp) :
    write_danmu s u c t n = write_danmu_locked s u c t := by
  have hguard : (s.filename.isNone && s.current_segment_file.isNone) = false := by
    cases hc : s.current_segment_file with
    | some f => simp [hc]
    | none =>
      cases hf : s.filename with
      | some f => simp [hf]
      | none => rw [activeFile, hc, hf] at hfp; exact absurd hfp (by simp)
  rw [write_danmu, hguard]
  simp

/-- Full characterization of one `write_danmu` call on an existing,
well-formed target file. -/
theorem write_danmu_step (s : RState) (u c : String) (t n : ℤ) (fp : String)
    (body : List String)
    (hfp : activeFile s = some fp)
    (hlk : lookupFile s.files fp = some (xml_header ++ body ++ ["</i>\n"])) :
    (write_danmu s u c t n).files =
      setFile s.files fp (xml_header ++ body ++ [danmu_line (secondOf s t) t u c, "</i>\n"])
    ∧ (write_danmu s u c t n).danmu_amount = s.danmu_amount + 1
    ∧ (write_danmu s u c t n).last_danmu_time = t := by
  have hins : insert_before_close (xml_header ++ (body ++ ["</i>\n"]))
      (danmu_line (secondOf s t) t u c) =
      xml_header ++ (body ++ [danmu_line (secondOf s t) t u c, "</i>\n"]) := by
    simpa using insert_before_close_eq (xml_header ++ body) (danmu_line (secondOf s t) t u c)
  rw [write_danmu_of_activeFile s u c t n fp hfp]
  rw [write_danmu_locked, hfp]
  simp [hlk, hins]

/-! ### Claim C1 — ACK frame construction -/

/-- Claim C1, evaluated at the failing input logId 5, internalExt
"ext_info": the frame built by create_ack_frame holds the echoed
extension in the same payloadType field that was supposed to carry the
ack type tag (the second assignment overwrites the first), so the
produced frame is not flagged "ack" and has no separate field for the
extension — contradicting the claim that the type tag and echoed
extension are held as distinct fields.  The logId is carried correctly. -/
theorem c1_ack_frame_overwrites_type_tag :
    create_ack_frame 5 "ext_info" =
      { logid := 5, payloadType := "ext_info", payload := [] }
    ∧ (create_ack_frame 5 "ext_info").payloadType ≠ "ack"
    ∧ (create_ack_frame 5 "ext_info").logid = 5 := by
  refine ⟨rfl, ?_, rfl⟩
  decide

/-! ### Claim C2 — decode totality at the try/except boundary -/

/-- Claim C2: for every byte sequence and every behaviour of the
protobuf/gzip primitives (including raising, modelled as Except.error),
parse_danmu_message either returns exactly the value its body computed
(a structurally valid DanmuData option), or the body raised and the
except boundary converts the exception to None — no exception escapes
the call.  The function is pure in the source (it only reads), so no
shared state is mutated on any path. -/
theorem c2_decode_never_raises (parsePF : List Nat → Except String PushFrameMsg)
    (gzipDec : List Nat → Except String (List Nat))
    (parseResp : List Nat → Except String ResponseMsg)
    (parseChat : List Nat → Except String ChatMessageD)
    (message : List Nat) :
    (∃ r : Option DanmuData,
        parse_danmu_body parsePF gzipDec parseResp parseChat message = Except.ok r ∧
        parse_danmu_message parsePF gzipDec parseResp parseChat message = r) ∨
    (∃ e : String,
        parse_danmu_body parsePF gzipDec parseResp parseChat message = Except.error e ∧
        parse_danmu_message parsePF gzipDec parseResp parseChat message = none) := by
  cases h : parse_danmu_body parsePF gzipDec parseResp parseChat message with
  | ok r => exact Or.inl ⟨r, rfl, by rw [parse_danmu_message, h]⟩
  | error e => exact Or.inr ⟨e, rfl, by rw [parse_danmu_message, h]⟩

/-! ### Claim C9 — at most one chat comment per frame -/

/-- Claim C9: the message-batch loop returns upon the first message whose
method is WebcastChatMessage: for any batch that is a prefix of
non-chat messages, then a chat message, then an arbitrary tail, the
result is exactly the decode of that first chat message — the right-hand
side does not mention the tail, so messages after the first chat message
are never decoded (and hence never delivered to the writer, which
_on_message invokes at most once per frame). -/
theorem c9_first_chat_message_only (parseChat : List Nat → Except String ChatMessageD)
    (logid : Nat) (needAck : Bool) (internalExt : String)
    (l1 l2 : List RawMessage) (m : RawMessage)
    (h1 : ∀ x ∈ l1, x.method ≠ "WebcastChatMessage")
    (hm : m.method = "WebcastChatMessage") :
    processMessages parseChat logid needAck internalExt (l1 ++ m :: l2) =
      match parseChat m.payload with
      | Except.ok cm =>
          Except.ok (some (DanmuData.chat cm.user cm.content logid needAck internalExt))
      | Except.error e => Except.error e := by
  induction l1 with
  | nil => simp [processMessages, hm]
  | cons a as ih =>
    have ha : ¬ (a.method = "WebcastChatMessage") := h1 a (List.mem_cons_self a as)
    have h2 : ∀ x ∈ as, x.method ≠ "WebcastChatMessage" :=
      fun x hx => h1 x (List.mem_cons_of_mem a hx)
    simp only [List.cons_append, processMessages, if_neg ha]
    exact ih h2

/-- Decoder used by the C9 witness: decodes every chat payload to a fixed
comment. -/
def c9_chat_decoder : List Nat → Except String ChatMessageD :=
  fun _ => Except.ok { user := { nickName := "u" }, content := "hello" }

/-- Witness for C9: a batch holding a gift message, then two chat
messages, yields exactly the first chat message's decode. -/
theorem c9_first_chat_message_only_witness :
    processMessages c9_chat_decoder 7 true "ie"
      [ { method := "WebcastGiftMessage", payload := [0] }
      , { method := "WebcastChatMessage", payload := [1] }
      , { method := "WebcastChatMessage", payload := [2] } ] =
      Except.ok (some (DanmuData.chat { nickName := "u" } "hello" 7 true "ie")) := by
  have h := c9_first_chat_message_only c9_chat_decoder 7 true "ie"
    [{ method := "WebcastGiftMessage", payload := [0] }]
    [{ method := "WebcastChatMessage", payload := [2] }]
    { method := "WebcastChatMessage", payload := [1] }
    (by decide) rfl
  exact h.trans rfl

/-! ### Claim C3 — well-formedness after every append -/

/-- Claim C3: an append (write_danmu) on an open segment whose file is on
disk and well-formed — header, open root tag, a body of lines, closing
tag — leaves the file well-formed with the same header and closing tag,
with the new comment line placed immediately before the closing tag, and
with exactly one more comment line than before the call. -/
theorem c3_append_preserves_document (s : RState) (u c : String) (t n : ℤ)
    (fp : String) (body : List String)
    (hfp : activeFile s = some fp)
    (hlk : lookupFile s.files fp = some (xml_header ++ body ++ ["</i>\n"])) :
    lookupFile (write_danmu s u c t n).files fp =
      some (xml_header ++ body ++ [danmu_line (secondOf s t) t u c, "</i>\n"])
    ∧ isDLine (danmu_line (secondOf s t) t u c) = true
    ∧ dCount (xml_header ++ body ++ [danmu_line (secondOf s t) t u c, "</i>\n"])
        = dCount (xml_header ++ body ++ ["</i>\n"]) + 1 := by
  obtain ⟨hf, _, _⟩ := write_danmu_step s u c t n fp body hfp hlk
  refine ⟨?_, isDLine_danmu_line _ _ _ _, ?_⟩
  · rw [hf]
    exact lookupFile_setFile _ _ _
  · simp [dCount, List.countP_append, List.countP_cons, isDLine_danmu_line]
    omega

/-- State for the C3 witness: a plain (non-segment) file `video.xml`,
freshly created, recording started at 100 s. -/
def c3w_state : RState :=
  { init_state "123" (some "video.flv") with
      filename := some "video.xml"
    , files := [("video.xml", xml_header ++ ["</i>\n"])]
    , start_time_t := 100000 }

/-- Witness for C3: appending one comment to the fresh file yields the
document with the comment line before the closing tag and one more
comment line. -/
theorem c3_append_preserves_document_witness :
    lookupFile (write_danmu c3w_state "bob" "hey" 105000 105000).files "video.xml" =
      some (xml_header ++ [] ++ [danmu_line (secondOf c3w_state 105000) 105000 "bob" "hey", "</i>\n"])
    ∧ isDLine (danmu_line (secondOf c3w_state 105000) 105000 "bob" "hey") = true
    ∧ dCount (xml_header ++ [] ++ [danmu_line (secondOf c3w_state 105000) 105000 "bob" "hey", "</i>\n"])
        = dCount (xml_header ++ [] ++ ["</i>\n"]) + 1 :=
  c3_append_preserves_document c3w_state "bob" "hey" 105000 105000 "video.xml" []
    (by decide) (by decide)

/-! ### Claim C6 — offset basis and on-disk line format -/

/-- The comment-record line exactly as the specification's template words
it: two-space indent, then
p="{offset rounded to 2 decimals},1,25,16777215,{absolute timestamp in
ms},0,1602022773,0" user="{user}">{content}</d> and a newline.  Written
from the spec to be compared against the source's danmu_line. -/
def specCommentLine (offset_ms : ℤ) (absMs : ℤ) (user content : String) : String :=
  "  <d p=\"" ++ centiStr (roundCenti offset_ms) ++ ",1,25,16777215," ++
    toString absMs ++ ",0,1602022773,0\" user=\"" ++ user ++ "\">" ++
    content ++ "</d>\n"

/-- The source's comment line coincides with the specification's
template. -/
theorem danmu_line_eq_specCommentLine (offset_ms absMs : ℤ) (u c : String) :
    danmu_line offset_ms absMs u c = specCommentLine offset_ms absMs u c := rfl

/-- In segment mode (segment file and its start instant both set) the
offset basis is the segment start. -/
theorem secondOf_segment (s : RState) (t st : ℤ)
    (hc : s.current_segment_file.isSome = true)
    (hst : s.segment_start_time = some st) : secondOf s t = t - st := by
  obtain ⟨f, hf⟩ := Option.isSome_iff_exists.mp hc
  simp [secondOf, hf, hst]

/-- Outside segment mode the offset basis is the recording start. -/
theorem secondOf_session (s : RState) (t : ℤ)
    (h : s.current_segment_file = none ∨ s.segment_start_time = none) :
    secondOf s t = t - s.start_time_t := by
  rcases h with hc | hst
  · cases hst2 : s.segment_start_time <;> simp [secondOf, hc, hst2]
  · cases hc2 : s.current_segment_file <;> simp [secondOf, hc2, hst]

/-- Full characterization of the lazy-creation path of `write_danmu`: with
no file open yet and a video file name known, the call opens the segment
file, anchors `segment_start_time` at the fresh `time.time()` read `n`,
and writes the comment with its offset relative to that creation
instant — not relative to `start_time_t`. -/
theorem write_danmu_creation (s : RState) (u c : String) (t n : ℤ) (v : String)
    (hf : s.filename = none) (hc : s.current_segment_file = none)
    (hv : s.video_filename = some v) :
    (write_danmu s u c t n).segment_start_time = some n
    ∧ (write_danmu s u c t n).current_segment_file = some (pathStem v ++ ".xml")
    ∧ lookupFile (write_danmu s u c t n).files (pathStem v ++ ".xml") =
        some (xml_header ++ [danmu_line (t - n) t u c, "</i>\n"]) := by
  have hfn : generate_filename s = some (pathStem v ++ ".xml") := by
    simp [generate_filename, hv]
  have hins := insert_before_close_eq xml_header (danmu_line (t - n) t u c)
  simp [write_danmu, hf, hc, hfn, write_danmu_locked, activeFile, secondOf,
    create_danmu_file, lookupFile_setFile, hins]

/-- State of a run with segmentation disabled, as `start` leaves it
(status 2, `enable_segment = false`, session start instant 0), with the
video file name already known. -/
def c6cex_state : RState :=
  (start (init_state "123" (some "video.flv"))
    (some { id_str := some "456", status := some 2 }) false 0).1

/-- Claim C6 counterexample: segmentation is not active (`start` was
called with `enable_segment = false`; session start instant 0) and the
first comment arrives at t = 100 s.  Because `__init__` always sets
`segment_index`, the lazy-creation path — the only reachable one — opens
a segment file and anchors `segment_start_time` at the arrival instant,
so the line is written with offset 0.0 relative to that instant, not
with the offset 100.0 relative to the session start instant that the
claim's "segmentation not active" half prescribes. -/
theorem c6_session_basis_counterexample :
    lookupFile (write_danmu c6cex_state "alice" "hi" 100000 100000).files "video.xml" =
      some (xml_header ++
        ["  <d p=\"0.0,1,25,16777215,100000,0,1602022773,0\" user=\"alice\">hi</d>\n",
         "</i>\n"])
    ∧ lookupFile (write_danmu c6cex_state "alice" "hi" 100000 100000).files "video.xml" ≠
      some (xml_header ++
        [specCommentLine (100000 - c6cex_state.start_time_t) 100000 "alice" "hi",
         "</i>\n"]) := by
  decide

/-- State for the C6 witness: an active segment opened at instant 100 s
(100000 ms), with the segment file fresh on disk. -/
def c6w_state : RState :=
  { init_state "123" (some "video.flv") with
      current_segment_file := some "video.xml"
    , segment_start_time := some 100000
    , segment_index := 1
    , files := [("video.xml", xml_header ++ ["</i>\n"])] }

/-- Claim C6 as amended: every append that writes a line computes its
offset relative to the current segment's start instant and writes
exactly the specification's template line with that offset (rounded to 2
decimals), the absolute timestamp in ms, the user and the content.  The
segment basis applies whether or not segmentation is enabled: the
lazy-creation path — always the one taken, since `__init__` sets
`segment_index`, making the source's non-segment creation branch
unreachable — opens a segment file and anchors its start instant at the
first comment's arrival before any line is written, so in a run without
segmentation offsets are relative to that arrival instant, not to the
session start instant `start_time_t`. -/
theorem c6_amended_segment_basis (s s2 : RState) (u c v : String) (t n st : ℤ)
    (fp : String) (body : List String)
    (hc : s.current_segment_file.isSome = true)
    (hst : s.segment_start_time = some st)
    (hfp : activeFile s = some fp)
    (hlk : lookupFile s.files fp = some (xml_header ++ body ++ ["</i>\n"]))
    (h2f : s2.filename = none) (h2c : s2.current_segment_file = none)
    (h2v : s2.video_filename = some v) :
    lookupFile (write_danmu s u c t n).files fp =
      some (xml_header ++ body ++ [specCommentLine (t - st) t u c, "</i>\n"])
    ∧ (write_danmu s2 u c t n).segment_start_time = some n
    ∧ (write_danmu s2 u c t n).current_segment_file = some (pathStem v ++ ".xml")
    ∧ lookupFile (write_danmu s2 u c t n).files (pathStem v ++ ".xml") =
        some (xml_header ++ [specCommentLine (t - n) t u c, "</i>\n"]) := by
  obtain ⟨hf1, _, _⟩ := write_danmu_step s u c t n fp body hfp hlk
  obtain ⟨h1, h2, h3⟩ := write_danmu_creation s2 u c t n v h2f h2c h2v
  refine ⟨?_, h1, h2, ?_⟩
  · rw [hf1, ← danmu_line_eq_specCommentLine, ← secondOf_segment s t st hc hst]
    exact lookupFile_setFile _ _ _
  · rw [← danmu_line_eq_specCommentLine]
    exact h3

/-- Witness for the amended C6 (end-to-end scenario B plus the
non-segment basis): on an open segment, "alice"/"hi" arriving 3.14 s
after segment start yields exactly the line with
p="3.14,1,25,16777215,... and user="alice">hi</d>; and in the
segmentation-disabled run the first comment at the same instant anchors
the basis at its own arrival, producing offset 0.0. -/
theorem c6_amended_segment_basis_witness :
    lookupFile (write_danmu c6w_state "alice" "hi" 103140 103140).files "video.xml" =
      some (xml_header ++ [] ++
        ["  <d p=\"3.14,1,25,16777215,103140,0,1602022773,0\" user=\"alice\">hi</d>\n",
         "</i>\n"])
    ∧ (write_danmu c6cex_state "alice" "hi" 103140 103140).segment_start_time = some 103140
    ∧ (write_danmu c6cex_state "alice" "hi" 103140 103140).current_segment_file =
        some "video.xml"
    ∧ lookupFile (write_danmu c6cex_state "alice" "hi" 103140 103140).files "video.xml" =
      some (xml_header ++
        ["  <d p=\"0.0,1,25,16777215,103140,0,1602022773,0\" user=\"alice\">hi</d>\n",
         "</i>\n"]) := by
  obtain ⟨h1, h2, h3, h4⟩ := c6_amended_segment_basis c6w_state c6cex_state "alice" "hi"
    "video.flv" 103140 103140 100000 "video.xml" []
    (by decide) rfl (by decide) (by decide) (by decide) (by decide) (by decide)
  refine ⟨?_, h2, ?_, ?_⟩
  · rw [h1]
    decide
  · rw [h3]
    decide
  · exact h4.trans (by decide)

/-! ### Claim C10 — counter increments even when the file is missing -/

/-- Claim C10: when a target file name is set but no file exists at that
path, write_danmu writes nothing to disk yet still increments the
comment counter and updates the last-comment timestamp, so the counter
can exceed the number of persisted comment lines. -/
theorem c10_counter_without_file (s : RState) (u c : String) (t n : ℤ) (fp : String)
    (hfp : activeFile s = some fp)
    (hmiss : lookupFile s.files fp = none) :
    (write_danmu s u c t n).files = s.files
    ∧ (write_danmu s u c t n).danmu_amount = s.danmu_amount + 1
    ∧ (write_danmu s u c t n).last_danmu_time = t := by
  rw [write_danmu_of_activeFile s u c t n fp hfp]
  rw [write_danmu_locked, hfp]
  simp [hmiss]

/-- State for the C10 witness: a file name is set but the output
directory holds no file at all. -/
def c10w_state : RState :=
  { init_state "123" (some "video.flv") with filename := some "video.xml" }

/-- Witness for C10: with the file missing, one write_danmu call leaves
the directory untouched while counting the comment. -/
theorem c10_counter_without_file_witness :
    (write_danmu c10w_state "alice" "hi" 50000 50000).files = c10w_state.files
    ∧ (write_danmu c10w_state "alice" "hi" 50000 50000).danmu_amount =
        c10w_state.danmu_amount + 1
    ∧ (write_danmu c10w_state "alice" "hi" 50000 50000).last_danmu_time = 50000 :=
  c10_counter_without_file c10w_state "alice" "hi" 50000 50000 "video.xml"
    (by decide) (by decide)

/-! ### Claim C4 — comments arriving before a base name is available -/

/-- A recorder as `__init__` leaves it, with no video file name set. -/
def c4_state : RState := init_state "123" none

/-- Claim C4 counterexample: with no base name available,
write_danmu for "alice"/"hi" returns the state completely unchanged —
nothing is buffered anywhere in the recorder's state — and after a base
name becomes available and a second comment ("bob"/"yo") arrives, the
resulting file holds only the second comment: the first comment was
dropped, not buffered and later persisted, refuting the claim. -/
theorem c4_no_buffering_counterexample :
    write_danmu c4_state "alice" "hi" 100000 100000 = c4_state
    ∧ (write_danmu (set_video_filename
          (write_danmu c4_state "alice" "hi" 100000 100000) "video.flv")
          "bob" "yo" 200000 200000).files =
        [("video.xml", xml_header ++
          ["  <d p=\"0.0,1,25,16777215,200000,0,1602022773,0\" user=\"bob\">yo</d>\n",
           "</i>\n"])]
    ∧ (write_danmu (set_video_filename
          (write_danmu c4_state "alice" "hi" 100000 100000) "video.flv")
          "bob" "yo" 200000 200000).danmu_amount = 1 := by
  decide

/-- Claim C4 as amended: a write_danmu call made while no base name is
available (no video file name, hence generate_filename yields None, and
no file open) returns with no effect at all — the comment is dropped,
not buffered, and is never persisted later. -/
theorem c4_amended_comment_dropped (s : RState) (u c : String) (t n : ℤ)
    (hv : s.video_filename = none) (hf : s.filename = none)
    (hc : s.current_segment_file = none) :
    write_danmu s u c t n = s := by
  simp [write_danmu, generate_filename, hv, hf, hc]

/-- Witness for the amended C4: the concrete dropped comment. -/
theorem c4_amended_comment_dropped_witness :
    write_danmu c4_state "alice" "hi" 100000 100000 = c4_state :=
  c4_amended_comment_dropped c4_state "alice" "hi" 100000 100000 rfl rfl rfl

/-! ### Claim C5 — reconnection policy on non-user close -/

/-- A recorder whose retry counter has reached the bound (3). -/
def c5_state : RState := { init_state "123" none with retry := 3 }

/-- Claim C5 counterexample: once the retry counter has reached the bound
of 3, a further non-user-initiated close (stop flag unset) leaves the
recorder state completely unchanged — the stop flag stays false, no
stopped state is entered — and the handler takes no action at all, so no
terminal failure is surfaced, refuting the claim that exceeding the
bound transitions the recorder to Stopped with a terminal failure. -/
theorem c5_retry_exhaustion_counterexample :
    on_close c5_state = (c5_state, CloseAction.noop)
    ∧ (on_close c5_state).1.stop_signal = false := by
  decide

/-- Claim C5 as amended: on a non-user-initiated close the handler only
increments a retry counter up to the fixed bound of 3, sleeping the
2-second backoff each time, and performs no actual reconnection; once
the counter has reached 3 the handler does nothing, and in no case does
it set the stop flag or surface a failure. -/
theorem c5_amended_retry_counter_only (s : RState)
    (hstop : s.stop_signal = false) (hmax : s.max_retry = 3) :
    (s.retry < 3 → on_close s = ({ s with retry := s.retry + 1 }, CloseAction.sleepRetry 2))
    ∧ (3 ≤ s.retry → on_close s = (s, CloseAction.noop))
    ∧ (on_close s).1.stop_signal = false := by
  refine ⟨?_, ?_, ?_⟩
  · intro h
    simp [on_close, hstop, hmax, h]
  · intro h
    simp [on_close, hstop, hmax, Nat.not_lt.mpr h]
  · by_cases h : s.retry < s.max_retry <;> simp [on_close, hstop, h]

/-- A recorder before any retry. -/
def c5w_state : RState := init_state "123" none

/-- Witness for the amended C5: the first non-user close bumps the retry
counter to 1 with the 2-second backoff. -/
theorem c5_amended_retry_counter_only_witness :
    on_close c5w_state = ({ c5w_state with retry := 1 }, CloseAction.sleepRetry 2) :=
  (c5_amended_retry_counter_only c5w_state rfl rfl).1 (by decide)

/-! ### Claim C7 — fail fast when the room is not live -/

/-- Claim C7: when the room-status lookup reports a status other than 2
(not currently live), start returns with no effect beyond recording the
resolved room id: no socket is opened, no segment checker starts, no
output file is created, and the output directory is untouched. -/
theorem c7_not_live_fail_fast (s : RState) (r : RoomJson) (enable_segment : Bool)
    (now : ℤ) (h : (r.status.getD 0) ≠ 2) :
    (start s (some r) enable_segment now).2 = []
    ∧ (start s (some r) enable_segment now).1.files = s.files
    ∧ StartEffect.openSocket ∉ (start s (some r) enable_segment now).2
    ∧ StartEffect.createFile ∉ (start s (some r) enable_segment now).2 := by
  simp [start, h]

/-- Witness for C7: a room answering status 4 (ended) yields no socket,
no file, no effect. -/
theorem c7_not_live_fail_fast_witness :
    (start (init_state "123" none) (some { id_str := some "456", status := some 4 }) true 0).2 = []
    ∧ (start (init_state "123" none) (some { id_str := some "456", status := some 4 }) true 0).1.files
        = (init_state "123" none).files
    ∧ StartEffect.openSocket ∉
        (start (init_state "123" none) (some { id_str := some "456", status := some 4 }) true 0).2
    ∧ StartEffect.createFile ∉
        (start (init_state "123" none) (some { id_str := some "456", status := some 4 }) true 0).2 :=
  c7_not_live_fail_fast (init_state "123" none) { id_str := some "456", status := some 4 } true 0
    (by decide)

/-! ### Claim C8 — closing is idempotent -/

/-- Claim C8: closing is idempotent — close_danmu_file never changes the
recorder state or any file (it only logs), so a second call has exactly
the same observable effect as the first and raises no error; and a
second stop() is a no-op on the state (the stop flag is simply set
again). -/
theorem c8_close_idempotent (s : RState) (fn : Option String) :
    close_danmu_file (close_danmu_file s fn).1 fn = close_danmu_file s fn
    ∧ (close_danmu_file s fn).1.files = s.files
    ∧ (close_danmu_file s fn).1 = s
    ∧ stop (stop s) = stop s := by
  cases fn <;> simp [close_danmu_file, stop]

end DLR
